import Mathlib

/-!
Shallow embedding of the subscription-synchronization logic of the
financial-data-analyst repository.

Timestamps are modelled as integers counting milliseconds since the epoch:
the source stores ISO strings produced by `new Date(epochSeconds * 1000)`,
and Date comparison on those strings coincides with integer comparison of
the underlying instants, so a provider field carrying epoch seconds `t`
lands in the store as `t * 1000`.

The subscriptions table is modelled as a list of rows; the Supabase
`upsert` with conflict key `user_id` and the `update ... match user_id`
calls are modelled as explicit list operations.  The `created_at` column is
never written by any handler (the database defaults it) and is left out of
the row model.
-/

namespace FinData

/-- A row of the `subscriptions` table, as written by the webhook handlers
(spec section 3).  Fields that some insert path leaves unset are options. -/
structure SubRow where
  user_id : String
  stripe_subscription_id : Option String
  stripe_customer_id : String
  status : String
  price_id : String
  current_period_start : Int
  current_period_end : Int
  cancel_at_period_end : Bool
  canceled_at : Option Int
  cancel_at : Option Int
  updated_at : Option Int
  last_payment_error : Option String
deriving DecidableEq, Repr

/-- The subscriptions table. -/
abbrev Store := List SubRow

/-- The provider event object (`event.data.object`), duck-typed as in the
source: subscription fields and the invoice field used by the handlers. -/
structure StripeObj where
  id : String
  customer : String
  status : String
  metadata_userId : Option String
  price_id : String
  current_period_start : Int
  current_period_end : Int
  cancel_at_period_end : Bool
  canceled_at : Option Int
  cancel_at : Option Int
  last_payment_error_message : Option String
deriving DecidableEq, Repr

/-- A provider webhook event: a type string plus the nested object. -/
structure Event where
  type : String
  obj : StripeObj
deriving DecidableEq, Repr

/-- An HTTP response body as produced by the webhook routes: the
received-true acknowledgement or an error message. -/
inductive RespBody where
  | received
  | errorMsg (m : String)
deriving DecidableEq, Repr

/-- An HTTP response: status code and body. -/
structure Resp where
  status : Nat
  body : RespBody
deriving DecidableEq, Repr

/-- `isSubscriptionActive` from src/lib/utils.ts (lines 41-61): the query
result is a possible database error plus a possible row; any error yields
false, a missing row yields false, and otherwise the check is
status equal to active and the period end strictly after the current
instant (`new Date(data.current_period_end) > new Date()`). -/
def isSubscriptionActive (err : Bool) (data : Option SubRow) (now : Int) : Bool :=
  if err then false
  else
    match data with
    | none => false
    | some d => d.status == "active" && decide (now < d.current_period_end)

/-- The access decision of the `/finance` route interceptor in
src/middleware.ts (lines 57-77): a query error or missing row denies, and
otherwise access is granted exactly when status equals active; the period
end is not consulted. -/
def middlewareAllowsFinance (err : Bool) (data : Option SubRow) : Bool :=
  if err then false
  else
    match data with
    | none => false
    | some d => d.status == "active"

/-- The debug `isActive` computation of
src/app/api/test-subscription/route.ts (lines 39-40): optional chaining on
a possibly missing row, then the same status-and-period check as
`isSubscriptionActive`. -/
def testRouteIsActive (data : Option SubRow) (now : Int) : Bool :=
  match data with
  | none => false
  | some d => d.status == "active" && decide (now < d.current_period_end)

/-- Supabase `update(patch).match(user_id)`: apply the patch to every row
whose `user_id` matches the key, leaving other rows unchanged. -/
def updateWhere (key : String) (p : SubRow → SubRow) (s : Store) : Store :=
  List.map (fun x => if x.user_id == key then p x else x) s

/-- Supabase `upsert` with conflict key `user_id`: when a row with the key
exists, the listed columns are written onto it (`upd`); otherwise a fresh
row (`ins`) is inserted with the unlisted columns null. -/
def upsert (key : String) (ins : SubRow) (upd : SubRow → SubRow) (s : Store) : Store :=
  if s.any (fun x => x.user_id == key) then
    List.map (fun x => if x.user_id == key then upd x else x) s
  else s ++ [ins]

/-- The row inserted by the created-event upsert of the
`handleWebhookEvent` variant (src/unnamed/part_015, lines 67-77): seven
columns are written, the rest are null. -/
def p15CreatedRow (e : Event) (u : String) : SubRow :=
  { user_id := u
    stripe_subscription_id := none
    stripe_customer_id := e.obj.customer
    status := e.obj.status
    price_id := e.obj.price_id
    current_period_start := e.obj.current_period_start * 1000
    current_period_end := e.obj.current_period_end * 1000
    cancel_at_period_end := e.obj.cancel_at_period_end
    canceled_at := none
    cancel_at := none
    updated_at := none
    last_payment_error := none }

/-- The conflict-update of the same created-event upsert: the seven listed
columns are written, every other column keeps its prior value. -/
def p15CreatedUpd (e : Event) (u : String) (x : SubRow) : SubRow :=
  { x with
    user_id := u
    stripe_customer_id := e.obj.customer
    status := e.obj.status
    price_id := e.obj.price_id
    current_period_start := e.obj.current_period_start * 1000
    current_period_end := e.obj.current_period_end * 1000
    cancel_at_period_end := e.obj.cancel_at_period_end }

/-- The updated-event patch of src/unnamed/part_015 (lines 85-105):
status and the period bounds are written. -/
def p15UpdatedPatch (e : Event) (x : SubRow) : SubRow :=
  { x with
    status := e.obj.status
    current_period_start := e.obj.current_period_start * 1000
    current_period_end := e.obj.current_period_end * 1000 }

/-- The deleted-event patch of src/unnamed/part_015 (lines 107-125):
status forced to canceled and canceled_at stamped with the processing
instant. -/
def p15DeletedPatch (now : Int) (x : SubRow) : SubRow :=
  { x with status := "canceled", canceled_at := some now }

/-- The payment-failed patch of src/unnamed/part_015 (lines 126-151). -/
def p15InvoicePatch (e : Event) (x : SubRow) : SubRow :=
  { x with status := "past_due",
           last_payment_error := e.obj.last_payment_error_message }

/-- `handleWebhookEvent` from src/unnamed/part_015 (lines 55-155): the
store effect of the asynchronously dispatched event handler.  Events whose
metadata carries no userId are dropped; a payment-failed invoice resolves
the user through a `.single()` lookup by customer id, which yields a row
only when exactly one row matches. -/
def handleWebhookEvent (now : Int) (e : Event) (s : Store) : Store :=
  if e.type == "payment_intent.succeeded" then s
  else if e.type == "customer.subscription.created" then
    match e.obj.metadata_userId with
    | some u => upsert u (p15CreatedRow e u) (p15CreatedUpd e u) s
    | none => s
  else if e.type == "customer.subscription.updated" then
    match e.obj.metadata_userId with
    | some u => updateWhere u (p15UpdatedPatch e) s
    | none => s
  else if e.type == "customer.subscription.deleted" then
    match e.obj.metadata_userId with
    | some u => updateWhere u (p15DeletedPatch now) s
    | none => s
  else if e.type == "invoice.payment_failed" then
    match List.filter (fun x => x.stripe_customer_id == e.obj.customer) s with
    | [r] => updateWhere r.user_id (p15InvoicePatch e) s
    | _ => s
  else s

/-- The full row written by the upsert of the synchronous handler in
src/app/api/stripe-webhook/route.ts (lines 119-142); `updated_at` is
stamped with the processing instant. -/
def routeRow (now : Int) (e : Event) (u : String) : SubRow :=
  { user_id := u
    stripe_subscription_id := some e.obj.id
    stripe_customer_id := e.obj.customer
    status := e.obj.status
    price_id := e.obj.price_id
    current_period_start := e.obj.current_period_start * 1000
    current_period_end := e.obj.current_period_end * 1000
    cancel_at_period_end := e.obj.cancel_at_period_end
    canceled_at := e.obj.canceled_at.map (fun t => t * 1000)
    cancel_at := e.obj.cancel_at.map (fun t => t * 1000)
    updated_at := some now
    last_payment_error := none }

/-- The conflict-update of the same upsert: every listed column is
overwritten; only the unlisted `last_payment_error` column keeps its
prior value. -/
def routeUpd (now : Int) (e : Event) (u : String) (x : SubRow) : SubRow :=
  { routeRow now e u with last_payment_error := x.last_payment_error }

/-- The deleted-event update of the synchronous handler
(src/app/api/stripe-webhook/route.ts, lines 166-186): status, canceled_at
and updated_at are written. -/
def routeDeletedPatch (now : Int) (x : SubRow) : SubRow :=
  { x with status := "canceled", canceled_at := some now,
           updated_at := some now }

/-- Abstract provider signature over a payload: the signing secret and the
exact payload it was computed over.

Modelled from the spec: the cryptographic signing and verification are
performed by the payment-provider SDK (`stripe.webhooks.constructEvent`),
which is not part of this repository; per spec sections 4.1 and 8,
verification succeeds exactly when the signature was computed over the
exact raw bytes with the correct shared secret, so a signature is modelled
as that pair. -/
structure Sig (α : Type) where
  secret : String
  payload : α
deriving DecidableEq

/-- Modelled from the spec: signature verification as performed inside the
provider SDK call — succeeds exactly when the signature's secret matches
the shared secret and its payload is the exact body presented. -/
def verifySig {α : Type} [DecidableEq α] (body : α) (sg : Sig α) (secret : String) : Bool :=
  decide (sg.secret = secret) && decide (sg.payload = body)

/-- `POST` of src/app/api/stripe-webhook/route.ts (lines 48-199), the
synchronous handler: a missing or failing signature is caught and answered
400; a verified created or updated event requires metadata userId (else
400) and answers 400 when the upsert reports a database error (`dbFail`);
a verified deleted event updates when the userId is present, logging but
not surfacing database errors; every other verified type is acknowledged.
Returns the response paired with the resulting store. -/
def routePOST (now : Int) (body : Event) (sig : Option (Sig Event))
    (secret : String) (dbFail : Bool) (s : Store) : Resp × Store :=
  match sig with
  | none => (⟨400, RespBody.errorMsg "Webhook Error"⟩, s)
  | some sg =>
    if verifySig body sg secret then
      if body.type == "customer.subscription.created"
          || body.type == "customer.subscription.updated" then
        match body.obj.metadata_userId with
        | none => (⟨400, RespBody.errorMsg "No user ID found"⟩, s)
        | some u =>
          if dbFail then
            (⟨400, RespBody.errorMsg "Failed to update subscription"⟩, s)
          else
            (⟨200, RespBody.received⟩,
              upsert u (routeRow now body u) (routeUpd now body u) s)
      else if body.type == "customer.subscription.deleted" then
        match body.obj.metadata_userId with
        | none => (⟨200, RespBody.received⟩, s)
        | some u =>
          (⟨200, RespBody.received⟩,
            if dbFail then s else updateWhere u (routeDeletedPatch now) s)
      else (⟨200, RespBody.received⟩, s)
    else (⟨400, RespBody.errorMsg "Webhook Error"⟩, s)

/-- `POST` of src/unnamed/part_015 (lines 22-53), the asynchronous
handler: a missing signature answers 400, a failing verification answers
400, and a verified event is acknowledged 200 immediately while
`handleWebhookEvent` runs detached with its errors swallowed — a database
failure (`dbFail`) leaves the store unchanged and is never surfaced. -/
def part015POST (now : Int) (body : Event) (sig : Option (Sig Event))
    (secret : String) (dbFail : Bool) (s : Store) : Resp × Store :=
  match sig with
  | none => (⟨400, RespBody.errorMsg "No signature"⟩, s)
  | some sg =>
    if verifySig body sg secret then
      (⟨200, RespBody.received⟩,
        if dbFail then s else handleWebhookEvent now body s)
    else (⟨400, RespBody.errorMsg "Webhook failed"⟩, s)

/-- Outcome of one invocation of the in-memory duplicate guard. -/
inductive AsyncOutcome where
  | skippedDuplicate
  | processed
deriving DecidableEq, Repr

/-- `handleWebhookEventAsync` from src/app/auth/callback/route.ts (lines
200-211): the guard set is constructed empty inside the invocation, the
event key is the type and object id joined by a colon, and the duplicate
branch returns early; otherwise the key is added and the event is
processed (the switch body only logs).  Returns the outcome and the final
contents of the guard set. -/
def handleWebhookEventAsync (e : Event) : AsyncOutcome × List String :=
  let processedEvents : List String := []
  let eventKey := e.type ++ ":" ++ e.obj.id
  if eventKey ∈ processedEvents then
    (AsyncOutcome.skippedDuplicate, processedEvents)
  else
    (AsyncOutcome.processed, eventKey :: processedEvents)

/-- The keys (user ids) of a store. -/
def keys (s : Store) : List String :=
  List.map SubRow.user_id s

/-- A patch that preserves the key of matching rows leaves the store keys
unchanged. -/
theorem keys_updateWhere (u : String) (p : SubRow → SubRow)
    (hid : ∀ x, x.user_id = u → (p x).user_id = x.user_id) (s : Store) :
    keys (updateWhere u p s) = keys s := by
  have hg : SubRow.user_id ∘ (fun x => if x.user_id == u then p x else x)
      = SubRow.user_id := by
    funext x
    by_cases hx : x.user_id = u
    · simp [Function.comp, hx, hid x hx]
    · simp [Function.comp, hx]
  simp only [keys, updateWhere, List.map_map, hg]

/-- Applying a per-key patch twice is the same as applying it once, when
the patch is idempotent on matching rows and keeps their key. -/
theorem updateWhere_idem (u : String) (p : SubRow → SubRow)
    (hid : ∀ x, x.user_id = u → (p x).user_id = x.user_id)
    (hp : ∀ x, x.user_id = u → p (p x) = p x) (s : Store) :
    updateWhere u p (updateWhere u p s) = updateWhere u p s := by
  have hg : (fun x => if x.user_id == u then p x else x)
        ∘ (fun x => if x.user_id == u then p x else x)
      = (fun x => if x.user_id == u then p x else x) := by
    funext x
    by_cases hx : x.user_id = u
    · simp [Function.comp, hx, hid x hx, hp x hx]
    · simp [Function.comp, hx]
  simp only [updateWhere, List.map_map, hg]

/-- When a row with the key is present, the upsert takes its update
branch. -/
theorem upsert_pos (u : String) (ins : SubRow) (upd : SubRow → SubRow)
    (s : Store) (h : s.any (fun x => x.user_id == u) = true) :
    upsert u ins upd s = updateWhere u upd s := by
  simp only [upsert, updateWhere, h, if_pos]

/-- When no row with the key is present, the upsert inserts. -/
theorem upsert_neg (u : String) (ins : SubRow) (upd : SubRow → SubRow)
    (s : Store) (h : s.any (fun x => x.user_id == u) = false) :
    upsert u ins upd s = s ++ [ins] := by
  simp only [upsert, h, Bool.false_eq_true, if_neg, not_false_eq_true]

/-- The conflict-key upsert preserves distinctness of store keys. -/
theorem keys_nodup_upsert (u : String) (ins : SubRow)
    (upd : SubRow → SubRow) (hins : ins.user_id = u)
    (hid : ∀ x, x.user_id = u → (upd x).user_id = x.user_id) (s : Store)
    (hs : (keys s).Nodup) : (keys (upsert u ins upd s)).Nodup := by
  by_cases hany : s.any (fun x => x.user_id == u) = true
  · rw [upsert_pos u ins upd s hany, keys_updateWhere u upd hid s]
    exact hs
  · rw [upsert_neg u ins upd s (Bool.eq_false_iff.mpr hany)]
    have hnotin : u ∉ keys s := by
      intro hmem
      obtain ⟨x, hx, hxu⟩ := List.mem_map.mp hmem
      exact hany (List.any_eq_true.mpr ⟨x, hx, by simp [hxu]⟩)
    simp only [keys, List.map_append, List.map_cons, List.map_nil,
      List.nodup_append, hins]
    refine ⟨hs, List.nodup_singleton u, ?_⟩
    intro a ha hb
    simp only [List.mem_singleton] at hb
    exact hnotin (hb ▸ ha)

/-- Applying the conflict-key upsert twice with the same arguments is the
same as applying it once, when the update is idempotent, fixes the
inserted row, and writes the key onto every row it touches. -/
theorem upsert_idem (u : String) (ins : SubRow) (upd : SubRow → SubRow)
    (hins : ins.user_id = u) (hid : ∀ x, (upd x).user_id = u)
    (hidem : ∀ x, upd (upd x) = upd x) (hui : upd ins = ins) (s : Store) :
    upsert u ins upd (upsert u ins upd s) = upsert u ins upd s := by
  have hg : (fun x => if x.user_id == u then upd x else x)
        ∘ (fun x => if x.user_id == u then upd x else x)
      = (fun x => if x.user_id == u then upd x else x) := by
    funext x
    by_cases hx : x.user_id = u
    · simp [Function.comp, hx, hid x, hidem x]
    · simp [Function.comp, hx]
  by_cases hany : s.any (fun x => x.user_id == u) = true
  · rw [upsert_pos u ins upd s hany]
    obtain ⟨x, hx, hxu⟩ := List.any_eq_true.mp hany
    have hany2 : (updateWhere u upd s).any (fun x => x.user_id == u)
        = true := by
      refine List.any_eq_true.mpr ⟨upd x, ?_, by simp [hid x]⟩
      simp only [updateWhere]
      exact List.mem_map.mpr ⟨x, hx, by simp [hxu]⟩
    rw [upsert_pos u ins upd _ hany2]
    simp only [updateWhere, List.map_map, hg]
  · rw [upsert_neg u ins upd s (Bool.eq_false_iff.mpr hany)]
    have hany2 : (s ++ [ins]).any (fun x => x.user_id == u) = true := by
      refine List.any_eq_true.mpr ⟨ins, ?_, by simp [hins]⟩
      simp
    rw [upsert_pos u ins upd _ hany2]
    have hmap : updateWhere u upd (s ++ [ins]) = s ++ [ins] := by
      simp only [updateWhere, List.map_append, List.map_cons, List.map_nil]
      have h1 : List.map (fun x => if x.user_id == u then upd x else x) s
          = s := by
        have := List.any_eq_false.mp (Bool.eq_false_iff.mpr hany)
        calc List.map (fun x => if x.user_id == u then upd x else x) s
            = List.map id s := by
              apply List.map_congr_left
              intro a ha
              simp only [id_eq]
              have : ¬(a.user_id == u) = true := this a ha
              simp only [this]
              simp at this
              simp [this]
          _ = s := List.map_id s
      rw [h1]
      simp [hins, hui]
    rw [hmap]

/-- The store effect of one correctly signed delivery to the synchronous
route handler. -/
def routeStoreEffect (now : Int) (secret : String) (dbFail : Bool)
    (e : Event) (s : Store) : Store :=
  (routePOST now e (some ⟨secret, e⟩) secret dbFail s).2

/-- Processing a sequence of events through the asynchronous handler. -/
def processEvents (now : Int) (evs : List Event) (s : Store) : Store :=
  evs.foldl (fun st e => handleWebhookEvent now e st) s

/-- Processing a sequence of correctly signed events through the
synchronous route handler. -/
def processEventsRoute (now : Int) (secret : String) (dbFail : Bool)
    (evs : List Event) (s : Store) : Store :=
  evs.foldl (fun st e => routeStoreEffect now secret dbFail e st) s

/-- The asynchronous handler preserves distinctness of store keys. -/
theorem keys_nodup_handleWebhookEvent (now : Int) (e : Event) (s : Store)
    (hs : (keys s).Nodup) : (keys (handleWebhookEvent now e s)).Nodup := by
  unfold handleWebhookEvent
  split_ifs with h1 h2 h3 h4 h5
  · exact hs
  · cases hm : e.obj.metadata_userId with
    | none => exact hs
    | some u =>
      exact keys_nodup_upsert u _ _ rfl
        (fun x hx => by simp [p15CreatedUpd, hx]) s hs
  · cases hm : e.obj.metadata_userId with
    | none => exact hs
    | some u =>
      show (keys (updateWhere u (p15UpdatedPatch e) s)).Nodup
      rw [keys_updateWhere u (p15UpdatedPatch e) (fun x _ => rfl) s]
      exact hs
  · cases hm : e.obj.metadata_userId with
    | none => exact hs
    | some u =>
      show (keys (updateWhere u (p15DeletedPatch now) s)).Nodup
      rw [keys_updateWhere u (p15DeletedPatch now) (fun x _ => rfl) s]
      exact hs
  · rcases hf : List.filter
        (fun x => x.stripe_customer_id == e.obj.customer) s
      with _ | ⟨r, _ | ⟨r2, t⟩⟩
    · simp only [hf]
      exact hs
    · simp only [hf]
      rw [keys_updateWhere r.user_id (p15InvoicePatch e) (fun x _ => rfl) s]
      exact hs
    · simp only [hf]
      exact hs
  · exact hs

/-- The store effect of the synchronous route handler on a correctly
signed event, written out by branch. -/
theorem routeStoreEffect_eq (now : Int) (secret : String) (dbFail : Bool)
    (e : Event) (s : Store) :
    routeStoreEffect now secret dbFail e s =
      if dbFail then s
      else if e.type == "customer.subscription.created"
          || e.type == "customer.subscription.updated" then
        match e.obj.metadata_userId with
        | some u => upsert u (routeRow now e u) (routeUpd now e u) s
        | none => s
      else if e.type == "customer.subscription.deleted" then
        match e.obj.metadata_userId with
        | some u => updateWhere u (routeDeletedPatch now) s
        | none => s
      else s := by
  have hv : verifySig e (⟨secret, e⟩ : Sig Event) secret = true := by
    simp [verifySig]
  unfold routeStoreEffect routePOST
  rcases hm : e.obj.metadata_userId with _ | u <;>
    cases dbFail <;>
      by_cases h1 : (e.type == "customer.subscription.created"
          || e.type == "customer.subscription.updated") = true <;>
        by_cases h2 : (e.type == "customer.subscription.deleted")
            = true <;>
          simp [hv, h1, h2, hm]

/-- The synchronous route handler preserves distinctness of store keys. -/
theorem keys_nodup_routeStoreEffect (now : Int) (secret : String)
    (dbFail : Bool) (e : Event) (s : Store) (hs : (keys s).Nodup) :
    (keys (routeStoreEffect now secret dbFail e s)).Nodup := by
  rw [routeStoreEffect_eq]
  cases dbFail
  · simp only [Bool.false_eq_true, if_false]
    by_cases h1 : (e.type == "customer.subscription.created"
        || e.type == "customer.subscription.updated") = true
    · simp only [h1, if_true]
      cases hm : e.obj.metadata_userId with
      | none => exact hs
      | some u =>
        exact keys_nodup_upsert u _ _ rfl
          (fun x hx => by simp [routeUpd, routeRow, hx]) s hs
    · simp only [h1, Bool.false_eq_true, if_false]
      split_ifs with h2
      · cases hm : e.obj.metadata_userId with
        | none => exact hs
        | some u =>
          show (keys (updateWhere u (routeDeletedPatch now) s)).Nodup
          rw [keys_updateWhere u (routeDeletedPatch now) (fun x _ => rfl) s]
          exact hs
      · exact hs
  · simpa using hs

/-- Branch reduction: the asynchronous handler on an updated event. -/
theorem handleWebhookEvent_updated (now : Int) (e : Event) (s : Store)
    (h : e.type = "customer.subscription.updated") :
    handleWebhookEvent now e s =
      match e.obj.metadata_userId with
      | some u => updateWhere u (p15UpdatedPatch e) s
      | none => s := by
  simp [handleWebhookEvent, h]

/-- Branch reduction: the asynchronous handler on a deleted event. -/
theorem handleWebhookEvent_deleted (now : Int) (e : Event) (s : Store)
    (h : e.type = "customer.subscription.deleted") :
    handleWebhookEvent now e s =
      match e.obj.metadata_userId with
      | some u => updateWhere u (p15DeletedPatch now) s
      | none => s := by
  simp [handleWebhookEvent, h]

/-- Branch reduction: the asynchronous handler on a created event. -/
theorem handleWebhookEvent_created (now : Int) (e : Event) (s : Store)
    (h : e.type = "customer.subscription.created") :
    handleWebhookEvent now e s =
      match e.obj.metadata_userId with
      | some u => upsert u (p15CreatedRow e u) (p15CreatedUpd e u) s
      | none => s := by
  simp [handleWebhookEvent, h]

/-- Distinct keys bound the number of rows per user by one. -/
theorem countP_le_one_of_keys_nodup (s : Store) (h : (keys s).Nodup)
    (u : String) : List.countP (fun r => r.user_id == u) s ≤ 1 := by
  induction s with
  | nil => simp
  | cons a t ih =>
    simp only [keys, List.map_cons, List.nodup_cons] at h
    rw [List.countP_cons]
    by_cases ha : (a.user_id == u) = true
    · have hz : List.countP (fun r => r.user_id == u) t = 0 := by
        rw [List.countP_eq_zero]
        intro x hx hxu
        apply h.1
        refine List.mem_map.mpr ⟨x, hx, ?_⟩
        simp only [beq_iff_eq] at ha hxu
        rw [hxu, ha]
      simp [ha, hz]
    · simp only [ha, if_false]
      simpa using ih h.2

/-- Folding the asynchronous handler preserves distinctness of keys. -/
theorem keys_nodup_processEvents (now : Int) (evs : List Event) (s : Store)
    (hs : (keys s).Nodup) : (keys (processEvents now evs s)).Nodup := by
  induction evs generalizing s with
  | nil => exact hs
  | cons e t ih => exact ih _ (keys_nodup_handleWebhookEvent now e s hs)

/-- Folding the synchronous route handler preserves distinctness of
keys. -/
theorem keys_nodup_processEventsRoute (now : Int) (secret : String)
    (dbFail : Bool) (evs : List Event) (s : Store)
    (hs : (keys s).Nodup) :
    (keys (processEventsRoute now secret dbFail evs s)).Nodup := by
  induction evs generalizing s with
  | nil => exact hs
  | cons e t ih =>
    exact ih _ (keys_nodup_routeStoreEffect now secret dbFail e s hs)

/-- A sample created event, matching the scenario of spec section 8. -/
def evCreated : Event :=
  { type := "customer.subscription.created"
    obj := { id := "sub_1", customer := "cus_1", status := "active"
             metadata_userId := some "u1", price_id := "price_1"
             current_period_start := 1700000000
             current_period_end := 1702592000
             cancel_at_period_end := false, canceled_at := none
             cancel_at := none, last_payment_error_message := none } }

/-- The same subscription delivered as an updated event. -/
def evUpdated : Event :=
  { evCreated with type := "customer.subscription.updated" }

/-- A deleted event for the same subscription. -/
def evDeleted : Event :=
  { type := "customer.subscription.deleted"
    obj := { evCreated.obj with status := "canceled" } }

/-- A created event whose metadata carries no userId. -/
def evNoUser : Event :=
  { evCreated with obj := { evCreated.obj with metadata_userId := none } }

/-- An event of an unrecognized type. -/
def evUnknown : Event :=
  { evCreated with type := "charge.refunded" }

/-- C10: the in-memory idempotency guard never short-circuits — the guard
set is constructed empty inside each invocation, so the duplicate branch
is unreachable and every event, an exact redelivery included, proceeds to
full processing, leaving exactly its own key in the set. -/
theorem handleWebhookEventAsync_always_processes :
    ∀ e : Event, (handleWebhookEventAsync e).1 = AsyncOutcome.processed ∧
      (handleWebhookEventAsync e).2 = [e.type ++ ":" ++ e.obj.id] := by
  intro e
  simp [handleWebhookEventAsync]

/-- C9: verification succeeds exactly when the signature was computed over
the exact raw bytes with the correct shared secret; mutating a single byte
of the body fails verification, a wrong secret fails verification, and a
failing verification makes both handlers answer 400 without processing the
event (the store is returned unchanged). -/
theorem verifySig_exact_bytes_and_secret :
    (∀ (bytes : List Nat) (sg : Sig (List Nat)) (secret : String),
      verifySig bytes sg secret = true ↔ sg = ⟨secret, bytes⟩) ∧
    (∀ (bytes : List Nat) (secret : String) (i v : Nat)
        (h : i < bytes.length), v ≠ bytes.get ⟨i, h⟩ →
      verifySig (bytes.set i v) (⟨secret, bytes⟩ : Sig (List Nat)) secret
        = false) ∧
    (∀ (bytes : List Nat) (wrong correct : String), wrong ≠ correct →
      verifySig bytes (⟨wrong, bytes⟩ : Sig (List Nat)) correct = false) ∧
    (∀ (now : Int) (body : Event) (sg : Sig Event) (secret : String)
        (dbFail : Bool) (s : Store), verifySig body sg secret = false →
      routePOST now body (some sg) secret dbFail s
          = (⟨400, RespBody.errorMsg "Webhook Error"⟩, s) ∧
        part015POST now body (some sg) secret dbFail s
          = (⟨400, RespBody.errorMsg "Webhook failed"⟩, s)) := by
  refine ⟨?_, ?_, ?_, ?_⟩
  · intro bytes sg secret
    obtain ⟨s0, p0⟩ := sg
    simp [verifySig, Sig.mk.injEq]
  · intro bytes secret i v h hne
    simp only [verifySig, Bool.and_eq_false_iff, decide_eq_false_iff_not]
    right
    intro heq
    apply hne
    have hq := congrArg (fun l => l[i]?) heq
    simp only [List.getElem?_set_self h] at hq
    rw [List.getElem?_eq_getElem h] at hq
    exact (Option.some_inj.mp hq).symm
  · intro bytes wrong correct hne
    simp [verifySig, hne]
  · intro now body sg secret dbFail s h
    exact ⟨by simp [routePOST, h], by simp [part015POST, h]⟩

/-- Concrete instance of C9: flipping the middle byte of a three-byte body
fails verification, a wrong secret fails verification, and a request whose
signature was made with the wrong secret is answered 400 with the store
unchanged. -/
theorem verifySig_exact_bytes_and_secret_witness :
    verifySig ([1, 2, 3].set 1 9) (⟨"whsec", [1, 2, 3]⟩ : Sig (List Nat))
        "whsec" = false ∧
    verifySig [1, 2, 3] (⟨"bad", [1, 2, 3]⟩ : Sig (List Nat)) "whsec"
        = false ∧
    routePOST 0 evCreated (some ⟨"bad", evCreated⟩) "whsec" false []
        = (⟨400, RespBody.errorMsg "Webhook Error"⟩, []) :=
  ⟨verifySig_exact_bytes_and_secret.2.1 [1, 2, 3] "whsec" 1 9 (by decide)
      (by decide),
    verifySig_exact_bytes_and_secret.2.2.1 [1, 2, 3] "bad" "whsec"
      (by decide),
    (verifySig_exact_bytes_and_secret.2.2.2 0 evCreated ⟨"bad", evCreated⟩
      "whsec" false [] (by decide)).1⟩

/-- C2: applying the same verified subscription.updated event twice yields
a store identical to applying it once.  For the asynchronous handler this
holds regardless of the two processing instants (the updated patch does
not consult the clock); for the store effect of the synchronous route
handler it holds at a fixed processing instant (the upsert stamps
updated_at with that instant). -/
theorem updated_event_idempotent :
    ∀ (now now2 : Int) (e : Event) (s : Store),
      e.type = "customer.subscription.updated" →
      (handleWebhookEvent now2 e (handleWebhookEvent now e s)
          = handleWebhookEvent now e s) ∧
      ∀ (secret : String),
        routeStoreEffect now secret false e
            (routeStoreEffect now secret false e s)
          = routeStoreEffect now secret false e s := by
  intro now now2 e s h
  constructor
  · rw [handleWebhookEvent_updated now e s h]
    cases hm : e.obj.metadata_userId with
    | none => rw [handleWebhookEvent_updated now2 e s h, hm]
    | some u =>
      rw [handleWebhookEvent_updated now2 e _ h, hm]
      exact updateWhere_idem u (p15UpdatedPatch e)
        (fun x _ => rfl) (fun x _ => rfl) s
  · intro secret
    have hb : (e.type == "customer.subscription.created"
        || e.type == "customer.subscription.updated") = true := by
      simp [h]
    rw [routeStoreEffect_eq, routeStoreEffect_eq]
    simp only [Bool.false_eq_true, if_false, hb, if_true]
    cases hm : e.obj.metadata_userId with
    | none => rfl
    | some u =>
      exact upsert_idem u (routeRow now e u) (routeUpd now e u) rfl
        (fun x => rfl) (fun x => rfl) rfl s

/-- Concrete instance of C2: redelivering the sample updated event to a
one-row store changes nothing, for both handlers. -/
theorem updated_event_idempotent_witness :
    (handleWebhookEvent 7 evUpdated
        (handleWebhookEvent 3 evUpdated (processEvents 3 [evCreated] []))
      = handleWebhookEvent 3 evUpdated (processEvents 3 [evCreated] [])) ∧
    routeStoreEffect 3 "whsec" false evUpdated
        (routeStoreEffect 3 "whsec" false evUpdated
          (processEvents 3 [evCreated] []))
      = routeStoreEffect 3 "whsec" false evUpdated
          (processEvents 3 [evCreated] []) :=
  ⟨(updated_event_idempotent 3 7 evUpdated (processEvents 3 [evCreated] [])
      rfl).1,
    (updated_event_idempotent 3 3 evUpdated (processEvents 3 [evCreated] [])
      rfl).2 "whsec"⟩

/-- C3: after any sequence of webhook events processed from the empty
store, there is at most one row per user id — repeated or redelivered
created and updated events overwrite rather than accumulate — for the
asynchronous handler and for the synchronous route handler. -/
theorem at_most_one_row_per_user :
    ∀ (now : Int) (evs : List Event) (u : String),
      List.countP (fun r => r.user_id == u) (processEvents now evs []) ≤ 1 ∧
      ∀ (secret : String) (dbFail : Bool),
        List.countP (fun r => r.user_id == u)
          (processEventsRoute now secret dbFail evs []) ≤ 1 := by
  intro now evs u
  constructor
  · exact countP_le_one_of_keys_nodup _
      (keys_nodup_processEvents now evs [] (by simp [keys])) u
  · intro secret dbFail
    exact countP_le_one_of_keys_nodup _
      (keys_nodup_processEventsRoute now secret dbFail evs []
        (by simp [keys])) u

/-- C5: a verified event of a type outside the recognized set is answered
200 with the received-true body and mutates nothing, in both handlers. -/
theorem unrecognized_event_ack_no_mutation :
    ∀ (now : Int) (e : Event) (secret : String) (dbFail : Bool) (s : Store),
      e.type ≠ "customer.subscription.created" →
      e.type ≠ "customer.subscription.updated" →
      e.type ≠ "customer.subscription.deleted" →
      e.type ≠ "invoice.payment_failed" →
      part015POST now e (some ⟨secret, e⟩) secret dbFail s
          = (⟨200, RespBody.received⟩, s) ∧
      routePOST now e (some ⟨secret, e⟩) secret dbFail s
          = (⟨200, RespBody.received⟩, s) := by
  intro now e secret dbFail s h1 h2 h3 h4
  have hv : verifySig e (⟨secret, e⟩ : Sig Event) secret = true := by
    simp [verifySig]
  have hh : handleWebhookEvent now e s = s := by
    simp [handleWebhookEvent, h1, h2, h3, h4]
  constructor
  · simp [part015POST, hv, hh]
  · simp [routePOST, hv, h1, h2, h3]

/-- Concrete instance of C5: a verified charge.refunded event is
acknowledged and the store is untouched by both handlers. -/
theorem unrecognized_event_ack_no_mutation_witness :
    part015POST 0 evUnknown (some ⟨"whsec", evUnknown⟩) "whsec" false []
        = (⟨200, RespBody.received⟩, []) ∧
    routePOST 0 evUnknown (some ⟨"whsec", evUnknown⟩) "whsec" false []
        = (⟨200, RespBody.received⟩, []) :=
  unrecognized_event_ack_no_mutation 0 evUnknown "whsec" false []
    (by decide) (by decide) (by decide) (by decide)

/-- A deleted event for the same subscription with no userId metadata. -/
def evDeletedNoUser : Event :=
  { evDeleted with obj := { evDeleted.obj with metadata_userId := none } }

/-- A store row used in concrete instantiations. -/
def rowU1 : SubRow :=
  { user_id := "u1", stripe_subscription_id := some "sub_1"
    stripe_customer_id := "cus_1", status := "active"
    price_id := "price_1", current_period_start := 0
    current_period_end := 500, cancel_at_period_end := false
    canceled_at := none, cancel_at := none, updated_at := some 5
    last_payment_error := none }

/-- Rowwise relation between a store and its image under a row map. -/
theorem forall2_map_self {R : SubRow → SubRow → Prop} {g : SubRow → SubRow}
    (h : ∀ x, R x (g x)) : ∀ s : Store, List.Forall₂ R s (List.map g s)
  | [] => List.Forall₂.nil
  | a :: t => List.Forall₂.cons (h a) (forall2_map_self h t)

/-- The shape of a row after the deleted-event patch: status and
canceled_at written, updated_at stamped only when `stamps` is true, every
other field preserved. -/
def deletedFrame (now : Int) (stamps : Bool) (o n : SubRow) : Prop :=
  n.status = "canceled" ∧ n.canceled_at = some now ∧
  n.user_id = o.user_id ∧
  n.stripe_subscription_id = o.stripe_subscription_id ∧
  n.stripe_customer_id = o.stripe_customer_id ∧
  n.price_id = o.price_id ∧
  n.current_period_start = o.current_period_start ∧
  n.current_period_end = o.current_period_end ∧
  n.cancel_at_period_end = o.cancel_at_period_end ∧
  n.cancel_at = o.cancel_at ∧
  n.last_payment_error = o.last_payment_error ∧
  n.updated_at = (if stamps then some now else o.updated_at)

/-- C6 fails as stated on the synchronous handler: a verified deleted
event also rewrites updated_at (here from 5 to the processing instant
1000), a field the claim requires to keep its prior value. -/
theorem deleted_event_minimal_patch_counterexample :
    rowU1.updated_at = some 5 ∧
    (routeStoreEffect 1000 "whsec" false evDeleted [rowU1]).map
        SubRow.updated_at = [some 1000] := by decide

/-- C6 amended: a verified deleted event for user u patches the matching
rows with status canceled and canceled_at stamped at the processing
instant; the asynchronous handler leaves every other field unchanged,
the synchronous handler additionally stamps updated_at with the
processing instant and leaves every other field unchanged, and rows of
other users are untouched in both. -/
theorem deleted_event_patch_frame :
    ∀ (now : Int) (e : Event) (u : String) (secret : String) (s : Store),
      e.type = "customer.subscription.deleted" →
      e.obj.metadata_userId = some u →
      List.Forall₂ (fun o n =>
          if o.user_id = u then deletedFrame now false o n else n = o)
        s (handleWebhookEvent now e s) ∧
      List.Forall₂ (fun o n =>
          if o.user_id = u then deletedFrame now true o n else n = o)
        s (routeStoreEffect now secret false e s) := by
  intro now e u secret s ht hm
  constructor
  · rw [handleWebhookEvent_deleted now e s ht, hm]
    apply forall2_map_self
    intro x
    by_cases hx : x.user_id = u
    · simp [hx, p15DeletedPatch, deletedFrame]
    · simp [hx]
  · have hb : (e.type == "customer.subscription.created"
        || e.type == "customer.subscription.updated") = false := by
      simp [ht]
    have hd : (e.type == "customer.subscription.deleted") = true := by
      simp [ht]
    rw [routeStoreEffect_eq]
    simp only [Bool.false_eq_true, if_false, hb, hd, if_true, hm]
    apply forall2_map_self
    intro x
    by_cases hx : x.user_id = u
    · simp [hx, routeDeletedPatch, deletedFrame]
    · simp [hx]

/-- Concrete instance of the amended C6: the sample deleted event patches
the one-row store for u1 in both handlers as described. -/
theorem deleted_event_patch_frame_witness :
    List.Forall₂ (fun o n =>
        if o.user_id = "u1" then deletedFrame 1000 false o n else n = o)
      [rowU1] (handleWebhookEvent 1000 evDeleted [rowU1]) ∧
    List.Forall₂ (fun o n =>
        if o.user_id = "u1" then deletedFrame 1000 true o n else n = o)
      [rowU1] (routeStoreEffect 1000 "whsec" false evDeleted [rowU1]) :=
  deleted_event_patch_frame 1000 evDeleted "u1" "whsec" [rowU1] rfl rfl

/-- C7 fails as stated on the synchronous handler: a verified created
event whose metadata lacks userId is answered 400 — an error status that
makes the provider redeliver — rather than being dropped with success. -/
theorem missing_user_id_counterexample :
    verifySig evNoUser (⟨"whsec", evNoUser⟩ : Sig Event) "whsec" = true ∧
    routePOST 0 evNoUser (some ⟨"whsec", evNoUser⟩) "whsec" false []
      = (⟨400, RespBody.errorMsg "No user ID found"⟩, []) := by decide

/-- C7 amended: a verified subscription event whose metadata lacks userId
causes no store mutation anywhere; the asynchronous handler acknowledges
it with success for all three subscription event types, and the
synchronous handler does so for deleted events, but the synchronous
created and updated branch responds 400, which does request redelivery. -/
theorem missing_user_id_dropped :
    ∀ (now : Int) (e : Event) (secret : String) (dbFail : Bool) (s : Store),
      e.obj.metadata_userId = none →
      (e.type = "customer.subscription.created" ∨
          e.type = "customer.subscription.updated" →
        routePOST now e (some ⟨secret, e⟩) secret dbFail s
          = (⟨400, RespBody.errorMsg "No user ID found"⟩, s)) ∧
      (e.type = "customer.subscription.deleted" →
        routePOST now e (some ⟨secret, e⟩) secret dbFail s
          = (⟨200, RespBody.received⟩, s)) ∧
      (e.type = "customer.subscription.created" ∨
          e.type = "customer.subscription.updated" ∨
          e.type = "customer.subscription.deleted" →
        part015POST now e (some ⟨secret, e⟩) secret dbFail s
          = (⟨200, RespBody.received⟩, s)) := by
  intro now e secret dbFail s hm
  have hv : verifySig e (⟨secret, e⟩ : Sig Event) secret = true := by
    simp [verifySig]
  refine ⟨?_, ?_, ?_⟩
  · rintro (ht | ht) <;> simp [routePOST, hv, ht, hm]
  · intro ht
    simp [routePOST, hv, ht, hm]
  · rintro (ht | ht | ht) <;>
      simp [part015POST, hv, handleWebhookEvent, ht, hm]

/-- Concrete instance of the amended C7: a created event without userId is
answered 400 by the synchronous handler and 200 by the asynchronous one,
and a deleted event without userId is answered 200 by both; the store is
never touched. -/
theorem missing_user_id_dropped_witness :
    routePOST 0 evNoUser (some ⟨"whsec", evNoUser⟩) "whsec" false [rowU1]
        = (⟨400, RespBody.errorMsg "No user ID found"⟩, [rowU1]) ∧
    part015POST 0 evNoUser (some ⟨"whsec", evNoUser⟩) "whsec" false [rowU1]
        = (⟨200, RespBody.received⟩, [rowU1]) ∧
    routePOST 0 evDeletedNoUser (some ⟨"whsec", evDeletedNoUser⟩) "whsec"
        false [rowU1] = (⟨200, RespBody.received⟩, [rowU1]) :=
  ⟨(missing_user_id_dropped 0 evNoUser "whsec" false [rowU1] rfl).1
      (Or.inl rfl),
    (missing_user_id_dropped 0 evNoUser "whsec" false [rowU1] rfl).2.2
      (Or.inl rfl),
    (missing_user_id_dropped 0 evDeletedNoUser "whsec" false [rowU1]
      rfl).2.1 rfl⟩

/-- C4 fails as stated on the synchronous handler: a verified created
event whose persistence step fails is answered 400, not 200. -/
theorem ack_after_verification_counterexample :
    verifySig evCreated (⟨"whsec", evCreated⟩ : Sig Event) "whsec" = true ∧
    routePOST 0 evCreated (some ⟨"whsec", evCreated⟩) "whsec" true []
      = (⟨400, RespBody.errorMsg "Failed to update subscription"⟩, []) := by
  decide

/-- C4 amended: the asynchronous handler answers every verified request
200 with the received-true body, even when downstream processing fails;
the synchronous handler does so except for created and updated events
whose userId is missing or whose upsert fails, which it answers 400; a
failed signature verification is answered 400 with an error body by both
handlers, with the store unchanged. -/
theorem ack_after_verification :
    ∀ (now : Int) (e : Event) (sg : Sig Event) (secret : String)
        (dbFail : Bool) (s : Store),
      (verifySig e sg secret = true →
        (part015POST now e (some sg) secret dbFail s).1
            = ⟨200, RespBody.received⟩ ∧
        ((e.type = "customer.subscription.created" ∨
            e.type = "customer.subscription.updated") →
          e.obj.metadata_userId ≠ none → dbFail = false →
          (routePOST now e (some sg) secret dbFail s).1
            = ⟨200, RespBody.received⟩) ∧
        (e.type ≠ "customer.subscription.created" →
          e.type ≠ "customer.subscription.updated" →
          (routePOST now e (some sg) secret dbFail s).1
            = ⟨200, RespBody.received⟩)) ∧
      (verifySig e sg secret = false →
        part015POST now e (some sg) secret dbFail s
            = (⟨400, RespBody.errorMsg "Webhook failed"⟩, s) ∧
          routePOST now e (some sg) secret dbFail s
            = (⟨400, RespBody.errorMsg "Webhook Error"⟩, s)) := by
  intro now e sg secret dbFail s
  constructor
  · intro hv
    refine ⟨by simp [part015POST, hv], ?_, ?_⟩
    · rintro (ht | ht) hm hdb <;>
        · cases hmm : e.obj.metadata_userId with
          | none => exact absurd hmm hm
          | some u => simp [routePOST, hv, ht, hmm, hdb]
    · intro h1 h2
      by_cases h3 : e.type = "customer.subscription.deleted"
      · cases hmm : e.obj.metadata_userId with
        | none => simp [routePOST, hv, h1, h2, h3, hmm]
        | some u => simp [routePOST, hv, h1, h2, h3, hmm]
      · simp [routePOST, hv, h1, h2, h3]
  · intro hv
    exact ⟨by simp [part015POST, hv], by simp [routePOST, hv]⟩

/-- Concrete instance of the amended C4: a correctly signed created event
is answered 200 by both handlers even when the asynchronous downstream
step fails, and a wrongly signed request is answered 400 by both. -/
theorem ack_after_verification_witness :
    (part015POST 0 evCreated (some ⟨"whsec", evCreated⟩) "whsec" true
        []).1 = ⟨200, RespBody.received⟩ ∧
    (routePOST 0 evCreated (some ⟨"whsec", evCreated⟩) "whsec" false
        []).1 = ⟨200, RespBody.received⟩ ∧
    part015POST 0 evCreated (some ⟨"bad", evCreated⟩) "whsec" false []
      = (⟨400, RespBody.errorMsg "Webhook failed"⟩, []) :=
  ⟨((ack_after_verification 0 evCreated ⟨"whsec", evCreated⟩ "whsec" true
      []).1 (by decide)).1,
    ((ack_after_verification 0 evCreated ⟨"whsec", evCreated⟩ "whsec" false
      []).1 (by decide)).2.1 (Or.inl rfl) (by decide) rfl,
    ((ack_after_verification 0 evCreated ⟨"bad", evCreated⟩ "whsec" false
      []).2 (by decide)).1⟩

/-- C8 fails as stated: on an active row whose period has already ended,
the middleware grants /finance access while the page-level predicate
denies it — the two access-control sites do not use the same condition. -/
theorem access_predicate_single_counterexample :
    rowU1.status = "active" ∧ rowU1.current_period_end = 500 ∧
    middlewareAllowsFinance false (some rowU1) = true ∧
    isSubscriptionActive false (some rowU1) 1000 = false := by decide

/-- C8 amended: the page-level check and the debug endpoint compute the
same predicate (status active and period end strictly in the future), but
the route-protecting middleware grants access on status alone, ignoring
the period end; the middleware agrees with the page-level predicate on a
row exactly when that row is not an active row whose period has ended. -/
theorem access_predicates_amended :
    ∀ (d : SubRow) (now : Int),
      isSubscriptionActive false (some d) now
          = testRouteIsActive (some d) now ∧
      (middlewareAllowsFinance false (some d)
            = isSubscriptionActive false (some d) now ↔
        ¬(d.status = "active" ∧ d.current_period_end ≤ now)) := by
  intro d now
  refine ⟨rfl, ?_⟩
  show (d.status == "active")
      = (d.status == "active" && decide (now < d.current_period_end)) ↔
    ¬(d.status = "active" ∧ d.current_period_end ≤ now)
  cases hb : (d.status == "active") with
  | false =>
    simp only [beq_eq_false_iff_ne] at hb
    simp [hb]
  | true =>
    simp only [beq_iff_eq] at hb
    simp only [Bool.true_and, hb, eq_self_iff_true, true_and, not_le]
    constructor
    · intro h
      exact of_decide_eq_true h.symm
    · intro h
      simp [h]

/-- C1: the active-subscription predicate is true exactly when status is
active and the period end is strictly in the future; a past period end
forces false for every status, and cancel_at_period_end true alone does
not falsify it while the period end is in the future. -/
theorem isSubscriptionActive_characterization :
    (∀ (d : SubRow) (now : Int),
      isSubscriptionActive false (some d) now = true ↔
        d.status = "active" ∧ now < d.current_period_end) ∧
    (∀ (d : SubRow) (now : Int), d.current_period_end ≤ now →
      isSubscriptionActive false (some d) now = false) ∧
    (∀ (d : SubRow) (now : Int), d.status = "active" →
      now < d.current_period_end → d.cancel_at_period_end = true →
      isSubscriptionActive false (some d) now = true) := by
  refine ⟨?_, ?_, ?_⟩
  · intro d now
    simp [isSubscriptionActive]
  · intro d now h
    simp [isSubscriptionActive]
    intro _
    omega
  · intro d now h1 h2 _
    simp [isSubscriptionActive, h1, h2]

/-- Concrete instance of C1: a record that is active with a future period
end is reported active even with cancellation scheduled, and the same
record past its period end is reported inactive. -/
theorem isSubscriptionActive_characterization_witness :
    isSubscriptionActive false
      (some ⟨"u1", some "sub_1", "cus_1", "active", "price_1", 0, 500, true,
        none, some 500, none, none⟩) 100 = true ∧
    isSubscriptionActive false
      (some ⟨"u1", some "sub_1", "cus_1", "active", "price_1", 0, 500, true,
        none, some 500, none, none⟩) 900 = false :=
  ⟨isSubscriptionActive_characterization.2.2
      ⟨"u1", some "sub_1", "cus_1", "active", "price_1", 0, 500, true,
        none, some 500, none, none⟩ 100 rfl (by decide) rfl,
    isSubscriptionActive_characterization.2.1
      ⟨"u1", some "sub_1", "cus_1", "active", "price_1", 0, 500, true,
        none, some 500, none, none⟩ 900 (by decide)⟩

end FinData
